import Mathlib

/-!
Verification of the NodeJS-RabbitMQ client reliability layer.

Shallow embedding of the repository's core modules:

* `src/models/message.js` — the `Message` envelope (constructor, `validate`,
  `toJSON`, `fromJSON`);
* `src/rabbitmq/connection.js` — the `RabbitMQConnection` reconnection
  state machine (`handleConnectionError`);
* `src/rabbitmq/connection.js` (Consumer part) / `src/rabbitmq/consumer` —
  the per-delivery consume callback and its ack/reject discipline;
* `src/rabbitmq/publisher.js` — `Publisher.publish` serialization, option
  merging and error propagation;
* `src/config/rabbitmq.js` — the default message options.

JavaScript values are modelled by the inductive `JSValue`; JS objects are
association lists of string keys (property lookup is first match, property
assignment overwrites in place, as JS object spread/assignment does for the
unique-key objects the code manipulates).  Nondeterministic environment
inputs (`uuidv4()`, `Date.now()`, `new Date().toISOString()`) are passed
explicitly as a `FreshEnv`.
-/

/-- A JavaScript value, as far as the message layer inspects them. -/
inductive JSValue : Type where
  | null : JSValue
  | undefined : JSValue
  | bool : Bool → JSValue
  | num : Int → JSValue
  | str : String → JSValue
  | obj : List (String × JSValue) → JSValue
  | arr : List JSValue → JSValue

namespace JSValue

/-- The JavaScript `typeof` operator (note `typeof null === "object"`). -/
def jsTypeof : JSValue → String
  | .null => "object"
  | .undefined => "undefined"
  | .bool _ => "boolean"
  | .num _ => "number"
  | .str _ => "string"
  | .obj _ => "object"
  | .arr _ => "object"

/-- JavaScript truthiness (`if (v)`): falsy values are `null`, `undefined`,
`false`, `0` and the empty string; objects and arrays are always truthy. -/
def truthy : JSValue → Bool
  | .null => false
  | .undefined => false
  | .bool b => b
  | .num n => n != 0
  | .str s => s != ""
  | .obj _ => true
  | .arr _ => true

end JSValue

/-- The whitespace characters `String.prototype.trim` strips (the ASCII
ones; the claims never exercise the exotic Unicode space separators). -/
def isJsWhitespace (c : Char) : Bool :=
  c = ' ' || c = '\t' || c = '\n' || c = '\r' || c = '\x0b' || c = '\x0c'

/-- JavaScript `s.trim()`: leading and trailing whitespace removed. -/
def jsTrim (s : String) : String :=
  String.mk (((s.data.dropWhile isJsWhitespace).reverse.dropWhile isJsWhitespace).reverse)

/-- First-match lookup of a property in a JS object's field list. -/
def getKey : List (String × JSValue) → String → Option JSValue
  | [], _ => none
  | (k', v') :: rest, k => if k' = k then some v' else getKey rest k

/-- JS property assignment / object-literal override: if the key is present
its value is replaced in place (key order kept), otherwise the key is
appended at the end — exactly the JS object-literal semantics. -/
def setKey : List (String × JSValue) → String → JSValue → List (String × JSValue)
  | [], k, v => [(k, v)]
  | (k', v') :: rest, k, v =>
      if k' = k then (k, v) :: rest else (k', v') :: setKey rest k v

/-- Spreading an object literal `{...base, ...over}`: every field of `over`
is assigned, in order, on top of `base`. -/
def jsSpread (base over : List (String × JSValue)) : List (String × JSValue) :=
  over.foldl (fun acc kv => setKey acc kv.1 kv.2) base

/-- JS property access `v.k`: field lookup on objects, `undefined` on
everything else (the code only accesses properties of parsed objects). -/
def getField (v : JSValue) (k : String) : JSValue :=
  match v with
  | .obj l => (getKey l k).getD .undefined
  | _ => .undefined

/-- The own enumerable fields contributed by `{...v}`: an object's fields;
`null`/`undefined` and primitives contribute nothing (the code only spreads
plain metadata objects or the defaulted `{}`). -/
def spreadFields : JSValue → List (String × JSValue)
  | .obj l => l
  | _ => []

/- ### Basic lemmas about the JS object model -/

theorem getKey_setKey_self (l : List (String × JSValue)) (k : String) (v : JSValue) :
    getKey (setKey l k v) k = some v := by
  induction l with
  | nil => simp [setKey, getKey]
  | cons p rest ih =>
      by_cases h : p.1 = k
      · simp [setKey, h, getKey]
      · simp [setKey, h, getKey, ih]

theorem getKey_setKey_ne (l : List (String × JSValue)) (k k' : String) (v : JSValue)
    (h : k ≠ k') : getKey (setKey l k v) k' = getKey l k' := by
  induction l with
  | nil => simp [setKey, getKey, h, Ne.symm h]
  | cons p rest ih =>
      obtain ⟨pk, pv⟩ := p
      by_cases hp : pk = k
      · subst hp
        simp [setKey, getKey, h, Ne.symm h]
      · simp [setKey, getKey, hp, ih]

/-- Spreading fields none of which is named `k` leaves the `k` lookup
unchanged. -/
theorem getKey_jsSpread_notmem (base l : List (String × JSValue)) (k : String)
    (h : ∀ p ∈ l, p.1 ≠ k) : getKey (jsSpread base l) k = getKey base k := by
  induction l generalizing base with
  | nil => simp [jsSpread]
  | cons p rest ih =>
      have hp : p.1 ≠ k := h p (List.mem_cons_self p rest)
      have hrest : ∀ q ∈ rest, q.1 ≠ k := fun q hq => h q (List.mem_cons_of_mem p hq)
      show getKey (jsSpread (setKey base p.1 p.2) rest) k = getKey base k
      rw [ih (setKey base p.1 p.2) hrest, getKey_setKey_ne _ _ _ _ hp]

/-- Spreading an object with unique keys installs each of its bindings. -/
theorem getKey_jsSpread_mem (base l : List (String × JSValue)) (k : String) (v : JSValue)
    (hnd : (l.map Prod.fst).Nodup) (h : getKey l k = some v) :
    getKey (jsSpread base l) k = some v := by
  induction l generalizing base with
  | nil => simp [getKey] at h
  | cons p rest ih =>
      have hnd' := hnd
      rw [List.map_cons, List.nodup_cons] at hnd'
      obtain ⟨hpk, hrest⟩ := hnd'
      by_cases hp : p.1 = k
      · subst hp
        simp [getKey] at h
        subst h
        have hnot : ∀ q ∈ rest, q.1 ≠ p.1 := by
          intro q hq hqk
          exact hpk (hqk ▸ List.mem_map_of_mem Prod.fst hq)
        show getKey (jsSpread (setKey base p.1 p.2) rest) p.1 = some p.2
        rw [getKey_jsSpread_notmem _ _ _ hnot, getKey_setKey_self]
      · simp [getKey, hp] at h
        exact ih (setKey base p.1 p.2) hrest h

/-!
The Message envelope — `src/models/message.js`
-/

/-- The nondeterministic environment consumed by the `Message` code:
`uuidv4()` (a fresh UUID string), `Date.now()` (milliseconds since epoch)
and `new Date().toISOString()` (the same instant, ISO-8601 rendered). -/
structure FreshEnv : Type where
  uuid : String
  nowMs : Int
  nowISO : String

/-- The `Message` class: fields exactly as assigned by the constructor and
`fromJSON`.  `id`, `timestamp` and `type` stay `JSValue` because `fromJSON`
can install arbitrary parsed values in them; `metadata` is always built as
an object literal, so it is kept as a field list. -/
structure Message : Type where
  id : JSValue
  timestamp : JSValue
  type : JSValue
  data : JSValue
  metadata : List (String × JSValue)

namespace Message

/-- The constructor `new Message(data, type = "default", metadata = {})`.

JS default parameters replace an `undefined` argument only.  The metadata
object is `{...metadata, createdAt: new Date().toISOString()}`: the spread
of the caller's object followed by the `createdAt` assignment. -/
def construct (data ty md : JSValue) (env : FreshEnv) : Message :=
  let ty := match ty with
    | .undefined => JSValue.str "default"
    | t => t
  let md := match md with
    | .undefined => JSValue.obj []
    | m => m
  { id := .str env.uuid
    timestamp := .num env.nowMs
    type := ty
    data := data
    metadata := setKey (spreadFields md) "createdAt" (.str env.nowISO) }

/-- The test `data === undefined || data === null`, the first guard of `validate`. -/
def isNullish : JSValue → Bool
  | .undefined => true
  | .null => true
  | _ => false

/-- The method `validate()`: throws (modelled as `Except.error` with the thrown
message) when `data` is nullish or `type` is not a string whose trimmed
value is non-empty; otherwise returns `true`. -/
def validate (m : Message) : Except String Bool :=
  if isNullish m.data then
    .error "Message data is required"
  else
    match m.type with
    | .str s => if jsTrim s = "" then .error "Message type must be a non-empty string"
                else .ok true
    | _ => .error "Message type must be a non-empty string"

/-- The method `toJSON()`: the plain object with the five fields, in source order. -/
def toJSON (m : Message) : JSValue :=
  .obj [("id", m.id), ("timestamp", m.timestamp), ("type", m.type),
        ("data", m.data), ("metadata", .obj m.metadata)]

/-- The static `Message.fromJSON(rawMessage)` on an already-parsed value (the source
first runs `JSON.parse` when handed a string; the claims apply it to
objects, which pass through the `else` branch unchanged).

The constructor's fresh `id`/`timestamp` are always overwritten, so one
`FreshEnv` serves both the constructor call and the `||`-fallbacks. -/
def fromJSON (parsed : JSValue) (env : FreshEnv) : Message :=
  let message := construct (getField parsed "data") (getField parsed "type")
      (getField parsed "metadata") env
  { message with
    id := if (getField parsed "id").truthy then getField parsed "id" else .str env.uuid
    timestamp := if (getField parsed "timestamp").truthy then getField parsed "timestamp"
                 else .num env.nowMs }

end Message

/-!
The reconnection state machine — `src/rabbitmq/connection.js`
-/

/-- The connection-relevant configuration (`config.connection`):
`reconnectAttempts` defaults to 10, `reconnectInterval` to 5000 ms. -/
structure ConnConfig : Type where
  reconnectAttempts : Nat
  reconnectInterval : Nat

/-- The default configuration from `src/config/rabbitmq.js` with no
environment overrides. -/
def defaultConnConfig : ConnConfig :=
  { reconnectAttempts := 10, reconnectInterval := 5000 }

/-- The method `handleConnectionError()` acting on `this.connectionRetries`: returns
the updated retry counter and whether a reconnect `connect()` call was
scheduled via `setTimeout`.  (The method also nulls out `this.connection`
and `this.channel`; those fields do not influence scheduling.) -/
def handleConnectionError (cfg : ConnConfig) (connectionRetries : Nat) : Nat × Bool :=
  if connectionRetries < cfg.reconnectAttempts then
    (connectionRetries + 1, true)
  else
    (connectionRetries, false)

/-- The retry counter after `n` consecutive connection failures starting
from a fresh manager (`connectionRetries = 0`), with no successful
`connect()` in between (a success would reset the counter to 0). -/
def failRun (cfg : ConnConfig) : Nat → Nat
  | 0 => 0
  | n + 1 => (handleConnectionError cfg (failRun cfg n)).1

theorem failRun_eq_min (cfg : ConnConfig) (n : Nat) :
    failRun cfg n = min n cfg.reconnectAttempts := by
  induction n with
  | zero => simp [failRun]
  | succ n ih =>
      simp only [failRun, handleConnectionError, ih]
      by_cases h : min n cfg.reconnectAttempts < cfg.reconnectAttempts
      · simp only [h, if_true]
        omega
      · simp only [h, if_false]
        omega

/-- Claim C1: Starting from `connectionRetries = 0`, after `maxRetries`
(`cfg.reconnectAttempts`) consecutive connection failures the counter has
saturated at `maxRetries`, and `handleConnectionError` at that state — and
at every state reached by further consecutive failures — schedules no
reconnect attempt and leaves the counter unchanged. -/
theorem C1_reconnect_ceiling (cfg : ConnConfig) (j : Nat) :
    failRun cfg (cfg.reconnectAttempts + j) = cfg.reconnectAttempts ∧
    (handleConnectionError cfg (failRun cfg (cfg.reconnectAttempts + j))).2 = false ∧
    (handleConnectionError cfg (failRun cfg (cfg.reconnectAttempts + j))).1 =
      failRun cfg (cfg.reconnectAttempts + j) := by
  have hsat : failRun cfg (cfg.reconnectAttempts + j) = cfg.reconnectAttempts := by
    rw [failRun_eq_min]
    omega
  refine ⟨hsat, ?_, ?_⟩ <;> rw [hsat] <;> simp [handleConnectionError]

/-- Claim C1 witness: at the default configuration (`reconnectAttempts = 10`), right
after the tenth consecutive failure. -/
theorem C1_reconnect_ceiling_witness :
    failRun defaultConnConfig 10 = 10 ∧
    (handleConnectionError defaultConnConfig (failRun defaultConnConfig 10)).2 = false ∧
    (handleConnectionError defaultConnConfig (failRun defaultConnConfig 10)).1 =
      failRun defaultConnConfig 10 :=
  C1_reconnect_ceiling defaultConnConfig 0

/-!
The consume callback — `src/rabbitmq/consumer.js`
-/

/-- A delivery as the callback sees it: amqplib hands the callback either
`null` (broker-initiated cancel) or a message object whose `content`
buffer decodes to a string. -/
structure Delivery : Type where
  content : String
  deriving DecidableEq

/-- The outcome of `await messageHandler(parsedContent, msg)`. -/
inductive HandlerOutcome : Type where
  | success : HandlerOutcome
  | failure : String → HandlerOutcome
  deriving DecidableEq

/-- A channel call issued by the callback for a delivery. -/
inductive ChannelAction : Type where
  | ack : Delivery → ChannelAction
  | reject : Delivery → Bool → ChannelAction
  deriving DecidableEq

def countAcks : List ChannelAction → Nat
  | [] => 0
  | .ack _ :: rest => countAcks rest + 1
  | .reject _ _ :: rest => countAcks rest

def countRejects : List ChannelAction → Nat
  | [] => 0
  | .ack _ :: rest => countRejects rest
  | .reject _ _ :: rest => countRejects rest + 1

/-- The merge `const consumeOptions = { noAck: false, ...options }`. -/
def mergedConsumeOptions (options : List (String × JSValue)) : List (String × JSValue) :=
  jsSpread [("noAck", JSValue.bool false)] options

/-- The flag the callback's `if (!consumeOptions.noAck)` guards test. -/
def effNoAck (options : List (String × JSValue)) : Bool :=
  ((getKey (mergedConsumeOptions options) "noAck").getD .undefined).truthy

/-- The delivery callback registered by `Consumer.consume`, as the list of
channel calls it makes for one delivery.

A `null` message logs and returns.  Otherwise the content is decoded and
JSON-parsed inside an inner try/catch whose failure falls back to the raw
text, so the outer try/catch outcome is decided by the handler alone: on
handler success the `!noAck` guard acks, on a thrown/rejected handler the
catch block's `!noAck` guard rejects with `requeue = false`.  `channel.ack`
and `channel.reject` are modelled as recorded calls. -/
def consumeCallback (options : List (String × JSValue)) (msg : Option Delivery)
    (outcome : HandlerOutcome) : List ChannelAction :=
  match msg with
  | none => []
  | some m =>
      match outcome with
      | .success => if !(effNoAck options) then [.ack m] else []
      | .failure _ => if !(effNoAck options) then [.reject m false] else []

/-- Claim C3: With consume options whose effective `noAck` is `false`, a
delivery whose handler resolves normally is acked exactly once and never
rejected: the callback's channel calls are exactly `[ack msg]`. -/
theorem C3_ack_on_success (options : List (String × JSValue)) (m : Delivery)
    (h : effNoAck options = false) :
    consumeCallback options (some m) .success = [ChannelAction.ack m] ∧
    countAcks (consumeCallback options (some m) .success) = 1 ∧
    countRejects (consumeCallback options (some m) .success) = 0 := by
  simp [consumeCallback, h, countAcks, countRejects]

/-- Claim C3 witness: at the default consume options (`options = {}`) and a concrete
delivery. -/
theorem C3_ack_on_success_witness :
    consumeCallback [] (some ⟨"payload"⟩) .success = [ChannelAction.ack ⟨"payload"⟩] ∧
    countAcks (consumeCallback [] (some ⟨"payload"⟩) .success) = 1 ∧
    countRejects (consumeCallback [] (some ⟨"payload"⟩) .success) = 0 :=
  C3_ack_on_success [] ⟨"payload"⟩ rfl

/-- Claim C4: With consume options whose effective `noAck` is `false`, a
delivery whose handler throws (or rejects) is rejected exactly once with
`requeue = false` and never acked: the callback's channel calls are
exactly `[reject msg false]`. -/
theorem C4_reject_on_failure (options : List (String × JSValue)) (m : Delivery)
    (err : String) (h : effNoAck options = false) :
    consumeCallback options (some m) (.failure err) = [ChannelAction.reject m false] ∧
    countRejects (consumeCallback options (some m) (.failure err)) = 1 ∧
    countAcks (consumeCallback options (some m) (.failure err)) = 0 := by
  simp [consumeCallback, h, countAcks, countRejects]

/-- Claim C4 witness: at the default consume options and a concrete delivery and
handler error. -/
theorem C4_reject_on_failure_witness :
    consumeCallback [] (some ⟨"payload"⟩) (.failure "boom") =
      [ChannelAction.reject ⟨"payload"⟩ false] ∧
    countRejects (consumeCallback [] (some ⟨"payload"⟩) (.failure "boom")) = 1 ∧
    countAcks (consumeCallback [] (some ⟨"payload"⟩) (.failure "boom")) = 0 :=
  C4_reject_on_failure [] ⟨"payload"⟩ "boom" rfl

/-- Claim C5: When `consume` is called with options containing `noAck: true`
(a JS object, so its keys are unique), the callback issues no channel call
at all — neither ack nor reject — whatever the delivery and the handler
outcome. -/
theorem C5_noAck_suppresses_both (options : List (String × JSValue))
    (msg : Option Delivery) (outcome : HandlerOutcome)
    (hnd : (options.map Prod.fst).Nodup)
    (h : getKey options "noAck" = some (JSValue.bool true)) :
    consumeCallback options msg outcome = [] := by
  have heff : effNoAck options = true := by
    unfold effNoAck mergedConsumeOptions
    rw [getKey_jsSpread_mem _ _ _ _ hnd h]
    rfl
  cases msg with
  | none => rfl
  | some m => cases outcome <;> simp [consumeCallback, heff]

/-- Claim C5 witness: at `options = { noAck: true }`, a concrete delivery, and a
failing handler. -/
theorem C5_noAck_suppresses_both_witness :
    consumeCallback [("noAck", JSValue.bool true)] (some ⟨"payload"⟩) (.failure "boom") = [] :=
  C5_noAck_suppresses_both [("noAck", JSValue.bool true)] (some ⟨"payload"⟩)
    (.failure "boom") (by simp) rfl

/-!
The Publisher — `src/rabbitmq/publisher.js`
-/

/-- A JavaScript error value: its class name and message. -/
structure JSError : Type where
  name : String
  message : String
  deriving DecidableEq

/-- The behaviour of the underlying `channel.publish` write for one call:
amqplib returns a boolean (`true` = the local write buffer accepted the
write, `false` = the buffer is full) or throws (e.g. channel closed). -/
inductive WriteBehavior : Type where
  | returns : Bool → WriteBehavior
  | throws : JSError → WriteBehavior

/-- What the channel write was handed: the serialized content bytes and
the merged message options. -/
structure PublishedMessage : Type where
  content : String
  options : List (String × JSValue)

/-- The default `config.messageOptions` from `src/config/rabbitmq.js`. -/
def defaultMessageOptions : List (String × JSValue) :=
  [("persistent", JSValue.bool true)]

/-- JSON string-literal escaping (quote and backslash; sufficient for the
values evaluated here). -/
def jsonEscape (s : String) : String :=
  s.foldl (fun acc c =>
    if c = '"' then acc ++ "\\\""
    else if c = '\\' then acc ++ "\\\\"
    else acc.push c) ""

mutual

/-- A model of `JSON.stringify` on the values the publisher serializes: `undefined`
fields of objects are dropped and `undefined` array elements render as
`null`, as in JS. -/
def jsonStringify : JSValue → String
  | .null => "null"
  | .undefined => "null"
  | .bool b => if b then "true" else "false"
  | .num n => toString n
  | .str s => "\"" ++ jsonEscape s ++ "\""
  | .obj l => "\x7b" ++ String.intercalate "," (stringifyFields l) ++ "\x7d"
  | .arr l => "[" ++ String.intercalate "," (stringifyElems l) ++ "]"

def stringifyFields : List (String × JSValue) → List String
  | [] => []
  | (_, .undefined) :: rest => stringifyFields rest
  | (k, v) :: rest =>
      ("\"" ++ jsonEscape k ++ "\":" ++ jsonStringify v) :: stringifyFields rest

def stringifyElems : List JSValue → List String
  | [] => []
  | v :: rest => jsonStringify v :: stringifyElems rest

end

/-- The serialization step
`Buffer.from(typeof message === "object" ? JSON.stringify(message) : message)`:
values of `typeof` `"object"` (including `null`) are JSON-stringified,
strings pass through as raw bytes, and any other argument makes
`Buffer.from` throw a `TypeError`. -/
def serializeContent (message : JSValue) : Except JSError String :=
  if message.jsTypeof = "object" then .ok (jsonStringify message)
  else
    match message with
    | .str s => .ok s
    | m => .error ⟨"TypeError",
        "The first argument must be of type string or an instance of Buffer, received type "
          ++ m.jsTypeof⟩

namespace Publisher

/-- The method `Publisher.publish(message, routingKey, options)` observed at the
channel boundary: serialize the content, merge the caller's options over
`this.defaultMessageOptions` (`{...this.defaultMessageOptions, ...options}`),
and hand both to `channel.publish`, returning its boolean.  The method's
try/catch only logs and rethrows, so a throwing write surfaces as the
original error unchanged.  (The routing key passes through untouched and
plays no role in the claims.) -/
def publish (message : JSValue) (options : List (String × JSValue))
    (write : WriteBehavior) : Except JSError (PublishedMessage × Bool) :=
  match serializeContent message with
  | .error e => .error e
  | .ok content =>
      let messageOptions := jsSpread defaultMessageOptions options
      match write with
      | .returns b => .ok (⟨content, messageOptions⟩, b)
      | .throws e => .error e

end Publisher

/-- Claim C7: For every object or string message and any options, when the
channel write returns a boolean, `publish` succeeds with exactly that
boolean; the content handed to the channel is the message's JSON bytes for
objects and the raw string for strings; the options handed to the channel
are the caller's options merged over the defaults, so `persistent: true`
holds whenever the caller does not override it. -/
theorem C7_publish_serialization_options_result (message : JSValue)
    (options : List (String × JSValue)) (b : Bool)
    (hmsg : message.jsTypeof = "object" ∨ ∃ s, message = JSValue.str s) :
    ∃ sent : PublishedMessage,
      Publisher.publish message options (.returns b) = .ok (sent, b) ∧
      sent.options = jsSpread defaultMessageOptions options ∧
      (message.jsTypeof = "object" → sent.content = jsonStringify message) ∧
      (∀ s, message = JSValue.str s → sent.content = s) ∧
      ((∀ p ∈ options, p.1 ≠ "persistent") →
        getKey sent.options "persistent" = some (JSValue.bool true)) := by
  rcases hmsg with h | ⟨s, rfl⟩
  · refine ⟨⟨jsonStringify message, jsSpread defaultMessageOptions options⟩,
      ?_, rfl, fun _ => rfl, ?_, ?_⟩
    · simp [Publisher.publish, serializeContent, h]
    · rintro s rfl
      exact absurd h (by simp [JSValue.jsTypeof])
    · intro hp
      rw [getKey_jsSpread_notmem _ _ _ hp]
      rfl
  · refine ⟨⟨s, jsSpread defaultMessageOptions options⟩, ?_, rfl, ?_, ?_, ?_⟩
    · simp [Publisher.publish, serializeContent, JSValue.jsTypeof]
    · intro h
      exact absurd h (by simp [JSValue.jsTypeof])
    · intro s' hs
      cases hs
      rfl
    · intro hp
      rw [getKey_jsSpread_notmem _ _ _ hp]
      rfl

/-- Claim C7 witness: at a concrete object message, an option set that does not touch
`persistent`, and a full write buffer (`write returns false`). -/
theorem C7_publish_serialization_options_result_witness :
    (JSValue.obj [("a", JSValue.num 1)]).jsTypeof = "object" ∧
    ∃ sent : PublishedMessage,
      Publisher.publish (JSValue.obj [("a", JSValue.num 1)])
          [("priority", JSValue.num 5)] (.returns false) = .ok (sent, false) ∧
      sent.options = jsSpread defaultMessageOptions [("priority", JSValue.num 5)] ∧
      ((JSValue.obj [("a", JSValue.num 1)]).jsTypeof = "object" →
        sent.content = jsonStringify (JSValue.obj [("a", JSValue.num 1)])) ∧
      (∀ s, JSValue.obj [("a", JSValue.num 1)] = JSValue.str s → sent.content = s) ∧
      ((∀ p ∈ [(("priority" : String), JSValue.num 5)], p.1 ≠ "persistent") →
        getKey sent.options "persistent" = some (JSValue.bool true)) :=
  ⟨rfl, C7_publish_serialization_options_result (JSValue.obj [("a", JSValue.num 1)])
    [("priority", JSValue.num 5)] false (Or.inl rfl)⟩

/-- Claim C8 counterexample: The claim predicts a `BrokerIOError` when the
channel write throws.  At a concrete input where the write throws a plain
`Error("Channel closed")`, `publish` fails with exactly that original
error — its class name is `"Error"`, not `"BrokerIOError"` (no such class
exists in the repository; `src/utils/errors.js` defines `MessageQueueError`
and `publish` uses neither). -/
theorem C8_counterexample :
    Publisher.publish (JSValue.str "hello") [] (.throws ⟨"Error", "Channel closed"⟩) =
      .error ⟨"Error", "Channel closed"⟩ ∧
    ("Error" : String) ≠ "BrokerIOError" ∧
    ("Error" : String) ≠ "MessageQueueError" := by
  refine ⟨rfl, by decide, by decide⟩

/-- Claim C8 amended: Whenever the channel write inside `Publisher.publish`
throws, `publish` fails by rethrowing exactly the error thrown by the
write, unchanged (the catch block only logs and rethrows; no wrapping into
any dedicated error class occurs). -/
theorem C8_amended_publish_rethrows_write_error (message : JSValue)
    (options : List (String × JSValue)) (e : JSError)
    (h : ∃ c, serializeContent message = Except.ok c) :
    Publisher.publish message options (.throws e) = .error e := by
  obtain ⟨c, hc⟩ := h
  simp [Publisher.publish, hc]

/-- Claim C8 amended witness: at a concrete string message and a concrete thrown
error. -/
theorem C8_amended_publish_rethrows_write_error_witness :
    Publisher.publish (JSValue.str "m") [] (.throws ⟨"Error", "boom"⟩) =
      .error ⟨"Error", "boom"⟩ :=
  C8_amended_publish_rethrows_write_error (JSValue.str "m") [] ⟨"Error", "boom"⟩ ⟨"m", rfl⟩

/-!
Claims about the Message envelope.
-/

/-- Claim C2: For every valid envelope — `data` non-nullish, `type` a
non-empty string, any metadata object — built at an instant with a
non-empty fresh UUID and a non-zero `Date.now()`,
`Message.fromJSON(envelope.toJSON())` preserves `id`, `timestamp`, `type`
and `data` exactly. -/
theorem C2_envelope_roundtrip (data : JSValue) (s : String)
    (md : List (String × JSValue)) (env1 env2 : FreshEnv)
    (hdata : Message.isNullish data = false) (hty : s ≠ "")
    (hid : env1.uuid ≠ "") (hts : env1.nowMs ≠ 0) :
    let m := Message.construct data (JSValue.str s) (JSValue.obj md) env1
    let m2 := Message.fromJSON m.toJSON env2
    m2.id = m.id ∧ m2.timestamp = m.timestamp ∧ m2.type = m.type ∧ m2.data = m.data := by
  simp only [Message.construct, Message.toJSON, Message.fromJSON, getField, getKey,
    spreadFields, JSValue.truthy]
  simp [hid, hts]

/-- Claim C2 witness: at a concrete valid envelope and two concrete environments. -/
theorem C2_envelope_roundtrip_witness :
    let m := Message.construct (JSValue.str "x") (JSValue.str "user.registered")
      (JSValue.obj [("source", JSValue.str "test")]) ⟨"uuid-1", 100, "iso-1"⟩
    let m2 := Message.fromJSON m.toJSON ⟨"uuid-2", 200, "iso-2"⟩
    m2.id = m.id ∧ m2.timestamp = m.timestamp ∧ m2.type = m.type ∧ m2.data = m.data :=
  C2_envelope_roundtrip (JSValue.str "x") "user.registered"
    [("source", JSValue.str "test")] ⟨"uuid-1", 100, "iso-1"⟩ ⟨"uuid-2", 200, "iso-2"⟩
    rfl (by decide) (by decide) (by decide)

/-- Whether `type` is a string whose trimmed value is non-empty — the condition
`validate` actually accepts. -/
def typeIsNonBlankString : JSValue → Bool
  | .str s => !(jsTrim s == "")
  | _ => false

/-- A message whose `type` is the one-character whitespace string `" "`:
`" "` is a non-empty string, yet `validate` throws. -/
def whitespaceTypeMessage : Message :=
  Message.construct (JSValue.str "x") (JSValue.str " ") (JSValue.obj [])
    ⟨"uuid-1", 1, "iso-1"⟩

/-- Claim C6 counterexample: The claim says every message with non-null data
and a non-empty string `type` validates to `true`.  The message with
`data = "x"` and `type = " "` has non-nullish data and a non-empty string
type, yet `validate` throws the type error, because the source trims the
type before testing emptiness (`this.type.trim() === ""`). -/
theorem C6_counterexample :
    (" " : String) ≠ "" ∧
    Message.isNullish whitespaceTypeMessage.data = false ∧
    whitespaceTypeMessage.type = JSValue.str " " ∧
    whitespaceTypeMessage.validate = .error "Message type must be a non-empty string" :=
  ⟨by decide, rfl, rfl, rfl⟩

/-- Claim C6 amended: `Message.validate` raises exactly when the envelope
is invalid, where the accepted types are strings non-empty *after
trimming*: nullish (`null`/`undefined`) data throws the data-required
error; with non-nullish data, a `type` that is not a string or trims to
the empty string (in particular the empty string itself) throws the type
error, and a string `type` with non-empty trimmed value returns `true`
without throwing. -/
theorem C6_amended_validate_characterization (m : Message) :
    (Message.isNullish m.data = true → m.validate = .error "Message data is required") ∧
    (Message.isNullish m.data = false → typeIsNonBlankString m.type = false →
      m.validate = .error "Message type must be a non-empty string") ∧
    (Message.isNullish m.data = false → typeIsNonBlankString m.type = true →
      m.validate = .ok true) := by
  refine ⟨fun h => by simp [Message.validate, h], fun h ht => ?_, fun h ht => ?_⟩
  · cases hty : m.type <;> simp [hty, typeIsNonBlankString] at ht ⊢ <;>
      simp [Message.validate, h, hty, ht]
  · cases hty : m.type <;> simp [hty, typeIsNonBlankString] at ht <;>
      simp [Message.validate, h, hty, ht]

/-- Claim C6 amended witness: evaluated on three concrete messages, one per branch:
missing data, blank-string type, and a valid envelope. -/
theorem C6_amended_validate_characterization_witness :
    (Message.construct JSValue.null (JSValue.str "t") (JSValue.obj [])
      ⟨"u", 1, "i"⟩).validate = .error "Message data is required" ∧
    whitespaceTypeMessage.validate = .error "Message type must be a non-empty string" ∧
    (Message.construct (JSValue.str "x") (JSValue.str "t") (JSValue.obj [])
      ⟨"u", 1, "i"⟩).validate = .ok true :=
  ⟨(C6_amended_validate_characterization _).1 rfl,
   (C6_amended_validate_characterization whitespaceTypeMessage).2.1 rfl rfl,
   (C6_amended_validate_characterization _).2.2 rfl rfl⟩

/-- Claim C9: Every constructed message's metadata contains a `createdAt`
key holding the ISO-8601 rendering of the construction instant, every
caller-supplied key is present, and every caller-supplied key other than
`createdAt` keeps the caller's value. -/
theorem C9_metadata_createdAt_and_merge (data ty : JSValue)
    (md : List (String × JSValue)) (env : FreshEnv) :
    let m := Message.construct data ty (JSValue.obj md) env
    getKey m.metadata "createdAt" = some (JSValue.str env.nowISO) ∧
    (∀ k v, getKey md k = some v → (getKey m.metadata k).isSome) ∧
    (∀ k, k ≠ "createdAt" → getKey m.metadata k = getKey md k) := by
  intro m
  have hmeta : m.metadata = setKey md "createdAt" (JSValue.str env.nowISO) := rfl
  refine ⟨?_, ?_, ?_⟩
  · rw [hmeta, getKey_setKey_self]
  · intro k v hk
    by_cases h : "createdAt" = k
    · subst h
      rw [hmeta, getKey_setKey_self]
      rfl
    · rw [hmeta, getKey_setKey_ne _ _ _ _ h, hk]
      rfl
  · intro k hk
    rw [hmeta, getKey_setKey_ne _ _ _ _ (Ne.symm hk)]

/-- Claim C9 witness: at a concrete construction, with one caller key. -/
theorem C9_metadata_createdAt_and_merge_witness :
    let m := Message.construct (JSValue.str "x") (JSValue.str "t")
      (JSValue.obj [("source", JSValue.str "test")]) ⟨"u", 1, "iso-now"⟩
    getKey m.metadata "createdAt" = some (JSValue.str "iso-now") ∧
    (∀ k v, getKey [(("source" : String), JSValue.str "test")] k = some v →
      (getKey m.metadata k).isSome) ∧
    (∀ k, k ≠ "createdAt" →
      getKey m.metadata k = getKey [(("source" : String), JSValue.str "test")] k) :=
  C9_metadata_createdAt_and_merge (JSValue.str "x") (JSValue.str "t")
    [("source", JSValue.str "test")] ⟨"u", 1, "iso-now"⟩

/-- Claim C10: For every parsed input, `fromJSON` replaces a falsy `id`
(absent, `null`, empty string, …) by the freshly generated UUID and a
falsy `timestamp` (absent, `null`, `0`, …) by the current time; and —
since a real `uuidv4()` is non-empty and a real `Date.now()` is
non-zero — the returned message never has a falsy `id` or `timestamp`. -/
theorem C10_fromJSON_fills_id_timestamp (raw : JSValue) (env : FreshEnv)
    (hu : env.uuid ≠ "") (ht : env.nowMs ≠ 0) :
    let m := Message.fromJSON raw env
    ((getField raw "id").truthy = false → m.id = JSValue.str env.uuid) ∧
    ((getField raw "timestamp").truthy = false → m.timestamp = JSValue.num env.nowMs) ∧
    m.id.truthy = true ∧ m.timestamp.truthy = true := by
  intro m
  have hid : m.id = if (getField raw "id").truthy then getField raw "id"
      else JSValue.str env.uuid := rfl
  have htsd : m.timestamp = if (getField raw "timestamp").truthy then getField raw "timestamp"
      else JSValue.num env.nowMs := rfl
  refine ⟨fun h => ?_, fun h => ?_, ?_, ?_⟩
  · rw [hid, if_neg (by simp [h])]
  · rw [htsd, if_neg (by simp [h])]
  · rw [hid]
    by_cases h : (getField raw "id").truthy
    · rw [if_pos h]
      exact h
    · rw [if_neg h]
      simp [JSValue.truthy, hu]
  · rw [htsd]
    by_cases h : (getField raw "timestamp").truthy
    · rw [if_pos h]
      exact h
    · rw [if_neg h]
      simp [JSValue.truthy, ht]

/-- Claim C10 witness: at a raw object with no `id` and `timestamp: 0`, with a
concrete non-degenerate environment. -/
theorem C10_fromJSON_fills_id_timestamp_witness :
    let raw := JSValue.obj [("type", JSValue.str "t"), ("data", JSValue.str "x"),
      ("timestamp", JSValue.num 0)]
    let m := Message.fromJSON raw ⟨"uuid-9", 42, "iso-9"⟩
    ((getField raw "id").truthy = false → m.id = JSValue.str "uuid-9") ∧
    ((getField raw "timestamp").truthy = false → m.timestamp = JSValue.num 42) ∧
    m.id.truthy = true ∧ m.timestamp.truthy = true :=
  C10_fromJSON_fills_id_timestamp _ ⟨"uuid-9", 42, "iso-9"⟩ (by decide) (by decide)
